import Mathlib

/-!
Verification of the real-time voice-agent server (`src/server.js`) of the
`gsm-voice-agent` repository.  The JavaScript source is shallowly embedded:
Node `Buffer`s become `List Nat` (byte values 0-255), 16-bit PCM samples
become `Int`, JavaScript exceptions become `Option`/`Except` (`none` /
`Except.error` marks a thrown exception propagating out of the modelled
function), and the external HTTP/AWS services (Google STT, OpenAI chat,
Amazon Polly) become oracle function parameters, since their behaviour is
outside the program.
-/

/-- Model of `Buffer.prototype.readInt16LE`: reads bytes `i` and `i+1`
little-endian as a signed 16-bit value.  Node throws `ERR_OUT_OF_RANGE`
when the read runs past the end of the buffer; that is `none` here. -/
def readInt16LE (buf : List Nat) (i : Nat) : Option Int :=
  match buf[i]?, buf[i+1]? with
  | some lo, some hi =>
      let u := lo % 256 + 256 * (hi % 256)
      some (if u < 32768 then (u : Int) else (u : Int) - 65536)
  | _, _ => none

/-- Model of `Buffer.prototype.writeInt16LE value`: Node throws
`ERR_OUT_OF_RANGE` (here `none`) when the value is outside
`[-32768, 32767]`; otherwise the two's-complement bytes are written
little-endian. -/
def writeInt16LE (v : Int) : Option (List Nat) :=
  if v < -32768 ∨ 32767 < v then none
  else
    let u := (v.emod 65536).toNat
    some [u % 256, u / 256]

/-- One sample of `muLawToPcm` (server.js lines 209-215).  The argument is
one byte of the μ-law buffer; `c = ~muLawBuffer[i]` is a 32-bit complement
whose low byte is `255 - b`, and every mask used (`0x0F`, `0x70`, `0x80`)
looks only at that low byte. -/
def muLawToPcmSample (b : Nat) : Int :=
  let c := 255 - b % 256
  let mantissa := c &&& 0x0F
  let exponent := (c &&& 0x70) >>> 4
  let magnitude : Int := (((mantissa <<< 4) + 0x08) <<< (exponent + 3) : Nat)
  if c &&& 0x80 ≠ 0 then -magnitude else magnitude

/-- `muLawToPcm` (server.js lines 205-219): expands each μ-law byte
independently to a 16-bit sample and writes it with `writeInt16LE`.
`none` models the `RangeError` Node raises inside `writeInt16LE` when the
computed sample does not fit in 16 bits. -/
def muLawToPcm : List Nat → Option (List Nat)
  | [] => some []
  | b :: rest =>
    match writeInt16LE (muLawToPcmSample b), muLawToPcm rest with
    | some bs, some more => some (bs ++ more)
    | _, _ => none

/-- Fuel-driven floor of the base-2 logarithm, exact for `1 ≤ n < 2 ^ fuel`.
`floorLog2 n` below is the exact value of the source's
`Math.floor(Math.log1p(magnitude / 32) / Math.LN2)` applied to
`n = (32 + magnitude) / 32`: at every input where the theorems of this file
evaluate it, the floating-point expression is far from an integer boundary,
so the double-precision and exact values coincide. -/
def floorLog2Aux : Nat → Nat → Nat
  | 0, _ => 0
  | fuel + 1, n => if 2 ≤ n then floorLog2Aux fuel (n / 2) + 1 else 0

/-- Exact value of `Math.floor(Math.log1p(m / 32) / Math.LN2)`, i.e. the
floor of `log2 ((32 + m) / 32)`, for the magnitudes (≤ 32635) that
`pcmToMuLaw` feeds it. -/
def floorLog2 (n : Nat) : Nat := floorLog2Aux 16 n

/-- One sample of `pcmToMuLaw` (server.js lines 238-246).  `x` is the
16-bit signed sample read from the buffer.  `(x >> 8) & 0x80` extracts
bit 15 of the two's-complement form, written here through `emod 65536`;
the `~` of the final byte together with the `Buffer` byte-store truncation
is `255 - value` (the value is at most `0x9F`). -/
def pcmToMuLawSample (x : Int) : Nat :=
  let sign := ((x.emod 65536).toNat >>> 8) &&& 0x80
  let mag0 := x.natAbs
  let magnitude := if 32635 < mag0 then 32635 else mag0
  let exponent := floorLog2 ((32 + magnitude) / 32)
  let mantissa := (magnitude >>> (exponent + 3)) &&& 0x0F
  255 - (sign ||| (exponent <<< 4) ||| mantissa)

/-- The sample-reading loop of `pcmToMuLaw` (server.js lines 230-235):
`for (let i = 0; i < pcmBuffer.length; i += 4) readInt16LE(i)`.
Fuel is the iteration bound; callers pass `buf.length + 1`, which always
exceeds the number of iterations.  `none` models the `ERR_OUT_OF_RANGE`
thrown when `i < length` but the two-byte read runs past the end. -/
def readSamplesAux (buf : List Nat) : Nat → Nat → Option (List Int)
  | 0, _ => some []
  | fuel + 1, i =>
    if i < buf.length then
      match readInt16LE buf i with
      | none => none
      | some s =>
        match readSamplesAux buf fuel (i + 4) with
        | none => none
        | some rest => some (s :: rest)
    else some []

/-- `pcmToMuLaw` (server.js lines 228-249): naive 2:1 decimation (reads a
16-bit sample every 4 bytes) followed by per-sample companding. -/
def pcmToMuLaw (pcmBuffer : List Nat) : Option (List Nat) :=
  match readSamplesAux pcmBuffer (pcmBuffer.length + 1) 0 with
  | none => none
  | some samples => some (samples.map pcmToMuLawSample)

/-- Two's-complement little-endian byte pair of a 16-bit sample, used to
build the one-sample PCM buffers fed to `pcmToMuLaw` in the round-trip
property. -/
def int16LEBytes (x : Int) : List Nat :=
  let u := (x.emod 65536).toNat
  [u % 256, u / 256]

/-- `decode(encode(x))` for a single 16-bit sample `x`: run `pcmToMuLaw`
on the two-byte buffer holding `x`, then `muLawToPcm` on the result, then
read back the first decoded sample.  `none` marks a raised exception at
any stage. -/
def roundTrip (x : Int) : Option Int :=
  match pcmToMuLaw (int16LEBytes x) with
  | none => none
  | some mu =>
    match muLawToPcm mu with
    | none => none
    | some pcm => readInt16LE pcm 0

/-- C1: the claim says `muLawToPcm` returns without raising on every input
byte sequence.  In fact the decode formula
`((mantissa << 4) + 8) << (exponent + 3)` reaches 253952, far outside the
16-bit range, and `writeInt16LE` then throws `ERR_OUT_OF_RANGE`: the
single byte `0x8D` (141) decodes to magnitude 40960 and raises.  The
zero-length part of the claim does hold: `[]` maps to `[]`. -/
theorem muLawToPcm_raises_on_byte_141 :
    muLawToPcm [141] = none ∧ muLawToPcm [] = some [] := by
  exact ⟨rfl, rfl⟩

/-- C6: the round trip `decode(encode(x))` is not within any bounded
companding error of `x`: at `x = 2500` the decode stage raises
(`writeInt16LE` overflow, magnitude 36864), and at `x = 1000` the round
trip returns 14336, an error of 13336. -/
theorem roundTrip_unbounded_error :
    roundTrip 2500 = none ∧ roundTrip 1000 = some 14336 := by
  exact ⟨rfl, rfl⟩

/-- JavaScript-object key update: `obj[k] = v` replaces the value of an
existing key in place, otherwise appends the key. -/
def setA {α : Type} (m : List (String × α)) (k : String) (v : α) : List (String × α) :=
  match m with
  | [] => [(k, v)]
  | (k', v') :: rest => if k' == k then (k, v) :: rest else (k', v') :: setA rest k v

/-- JavaScript-object key deletion: `delete obj[k]` removes the key. -/
def removeA {α : Type} (m : List (String × α)) (k : String) : List (String × α) :=
  match m with
  | [] => []
  | (k', v') :: rest => if k' == k then removeA rest k else (k', v') :: removeA rest k

/-- The whitespace characters removed by `String.prototype.trim` that can
occur in the strings this development evaluates (the full JS set also
includes further Unicode space code points). -/
def isJsSpace (c : Char) : Bool :=
  c == ' ' || c == '\t' || c == '\n' || c == '\r' || c == '\x0b' || c == '\x0c'

/-- Model of `String.prototype.trim`: strip leading and trailing
whitespace. -/
def jsTrim (s : String) : String :=
  ⟨((s.data.dropWhile isJsSpace).reverse.dropWhile isJsSpace).reverse⟩

/-- Chat roles of the OpenAI message objects built by `generateLLMReply`. -/
inductive Role
  | system
  | user
  | assistant
  deriving DecidableEq

/-- One OpenAI chat message `{role, content}`. -/
structure Msg where
  role : Role
  content : String
  deriving DecidableEq

/-- The global `conversationHistory` object (server.js line 306): callSid
to list of chat messages. -/
abbrev ConvMap : Type := List (String × List Msg)

/-- The global `connections` object (server.js line 57): callSid to the
call's WebSocket (sockets are represented by numeric handles). -/
abbrev Registry : Type := List (String × Nat)

/-- The default system prompt of `generateLLMReply` (server.js lines
323-324; the `SYSTEM_PROMPT` environment override is not modelled). -/
def systemPrompt : String :=
  "You are Golden State Medical Transport’s voice agent. Speak concisely, warm and professional. You can: quote wheelchair/gurney trips, schedule pickups, check driver ETA, and send GPS links. Always confirm patient name, pickup/drop-off, date/time, mobility type, oxygen needs, weight, and stairs. If authorizations are required (Prospect/Astrana/Regal), gather member ID and case manager contact. If uncertain, politely ask clarifying questions or transfer to a human dispatcher. Comply with two‑party consent laws for recordings."

/-- Result of `generateLLMReply`: the returned reply text, the
`conversationHistory` map after the call, and whether the OpenAI HTTP
request was issued (instrumentation for the at-most-one-attempt and
no-reply-cycle properties). -/
structure GenOut where
  reply : String
  hist : ConvMap
  apiCalled : Bool

/-- `generateLLMReply` (server.js lines 319-367).  The OpenAI POST is the
oracle `chatApi`; `Except.ok content` stands for a response whose
`choices[0].message.content` is `content`, and `Except.error` for any
failure inside the `try` block (transport/auth error or a malformed
response shape), all of which the `catch` turns into the echo fallback.
Mutation of the global `conversationHistory` is explicit state passing. -/
def generateLLMReply (chatApi : List Msg → Except Unit String)
    (transcript : String) (callSid : String) (hist : ConvMap) : GenOut :=
  if transcript = "" ∨ jsTrim transcript = "" then
    { reply := "", hist := hist, apiCalled := false }
  else
    let hist1 := match List.lookup callSid hist with
      | none => setA hist callSid []
      | some _ => hist
    let prior := (List.lookup callSid hist1).getD []
    let messages := ⟨Role.system, systemPrompt⟩ :: prior ++ [⟨Role.user, transcript⟩]
    match chatApi messages with
    | Except.ok content =>
        let replyContent := jsTrim content
        { reply := replyContent,
          hist := setA hist1 callSid
            (prior ++ [⟨Role.user, transcript⟩, ⟨Role.assistant, replyContent⟩]),
          apiCalled := true }
    | Except.error _ =>
        { reply := "You said: " ++ transcript, hist := hist1, apiCalled := true }

/-- The per-call turn list stored for `k`, an absent key read as the empty
history (the code initialises absent keys to `[]` before use). -/
def histTurns (m : ConvMap) (k : String) : List Msg :=
  (List.lookup k m).getD []

theorem lookup_setA {α : Type} (m : List (String × α)) (k : String) (v : α) :
    List.lookup k (setA m k v) = some v := by
  induction m with
  | nil => simp [setA, List.lookup]
  | cons p rest ih =>
    obtain ⟨k', v'⟩ := p
    by_cases h : k' = k
    · subst h; simp [setA, List.lookup]
    · have hkk : (k == k') = false := beq_eq_false_iff_ne.mpr (Ne.symm h)
      simp [setA, List.lookup, h, hkk, ih]

theorem lookup_removeA {α : Type} (m : List (String × α)) (k : String) :
    List.lookup k (removeA m k) = none := by
  induction m with
  | nil => simp [removeA, List.lookup]
  | cons p rest ih =>
    obtain ⟨k', v'⟩ := p
    by_cases h : k' = k
    · subst h; simp [removeA, ih]
    · have hkk : (k == k') = false := beq_eq_false_iff_ne.mpr (Ne.symm h)
      simp [removeA, List.lookup, h, hkk, ih]

/-- C7: when the OpenAI call fails (any exception inside the `try` block),
`generateLLMReply` catches it and returns the deterministic echo fallback
`"You said: <transcript>"` for every transcript that is non-empty after
trimming; being a total function, it never propagates the error. -/
theorem generateLLMReply_fallback_on_failure
    (chatApi : List Msg → Except Unit String) (t sid : String) (hist : ConvMap)
    (ht : jsTrim t ≠ "") (hfail : ∀ ms, chatApi ms = Except.error ()) :
    (generateLLMReply chatApi t sid hist).reply = "You said: " ++ t := by
  have ht0 : ¬(t = "" ∨ jsTrim t = "") := by
    rintro (h | h)
    · exact ht (by rw [h]; rfl)
    · exact ht h
  unfold generateLLMReply
  rw [if_neg ht0]
  simp only [hfail]

/-- Closed instance of `generateLLMReply_fallback_on_failure` at transcript
`"hello"` with an always-failing chat adapter. -/
theorem generateLLMReply_fallback_on_failure_w :
    jsTrim "hello" ≠ "" ∧
    (generateLLMReply (fun _ => Except.error ()) "hello" "CA1" []).reply
      = "You said: hello" :=
  ⟨by decide,
   generateLLMReply_fallback_on_failure (fun _ => Except.error ()) "hello" "CA1" []
     (by decide) (fun _ => rfl)⟩

/-- C10: if the OpenAI call fails, the per-call turn history is left
unchanged (neither the transcript nor the fallback is appended; the code
only pre-creates an empty entry for a previously unseen call, which leaves
the stored turn sequence equal); when the call succeeds, the caller turn
and the agent turn are appended at the end, in that order, as a pair. -/
theorem generateLLMReply_history_discipline
    (chatF chatS : List Msg → Except Unit String) (t sid content : String)
    (hist : ConvMap)
    (hfail : ∀ ms, chatF ms = Except.error ())
    (hok : ∀ ms, chatS ms = Except.ok content)
    (ht : jsTrim t ≠ "") :
    histTurns (generateLLMReply chatF t sid hist).hist sid = histTurns hist sid ∧
    histTurns (generateLLMReply chatS t sid hist).hist sid
      = histTurns hist sid ++ [⟨Role.user, t⟩, ⟨Role.assistant, jsTrim content⟩] := by
  have ht0 : ¬(t = "" ∨ jsTrim t = "") := by
    rintro (h | h)
    · exact ht (by rw [h]; rfl)
    · exact ht h
  constructor
  · cases h : List.lookup sid hist with
    | none =>
      unfold generateLLMReply
      rw [if_neg ht0]
      simp [h, hfail, histTurns, lookup_setA]
    | some l =>
      unfold generateLLMReply
      rw [if_neg ht0]
      simp [h, hfail, histTurns]
  · cases h : List.lookup sid hist with
    | none =>
      unfold generateLLMReply
      rw [if_neg ht0]
      simp [h, hok, histTurns, lookup_setA]
    | some l =>
      unfold generateLLMReply
      rw [if_neg ht0]
      simp [h, hok, histTurns, lookup_setA]

/-- Closed instance of `generateLLMReply_history_discipline`: with an empty
history for call `"CA1"`, a failing adapter leaves the turn list empty and
a succeeding adapter appends the caller/agent pair. -/
theorem generateLLMReply_history_discipline_w :
    jsTrim "hello" ≠ "" ∧
    (histTurns (generateLLMReply (fun _ => Except.error ()) "hello" "CA1" []).hist "CA1"
        = histTurns ([] : ConvMap) "CA1" ∧
     histTurns (generateLLMReply (fun _ => Except.ok "Sure.") "hello" "CA1" []).hist "CA1"
        = histTurns ([] : ConvMap) "CA1"
          ++ [⟨Role.user, "hello"⟩, ⟨Role.assistant, jsTrim "Sure."⟩]) :=
  ⟨by decide,
   generateLLMReply_history_discipline (fun _ => Except.error ())
     (fun _ => Except.ok "Sure.") "hello" "CA1" "Sure." []
     (fun _ => rfl) (fun _ => rfl) (by decide)⟩

/-- The base64 alphabet used by Node's `Buffer` base64 conversions. -/
def base64Table : List Char :=
  "ABCDEFGHIJKLMNOPQRSTUVWXYZabcdefghijklmnopqrstuvwxyz0123456789+/".data

/-- Character of a 6-bit value in the base64 alphabet. -/
def b64Char (n : Nat) : Char := base64Table.getD n '='

/-- Chunked base64 encoding of a byte list (RFC 4648 with padding), the
behaviour of `Buffer.prototype.toString` with `'base64'`. -/
def base64Chunks : List Nat → List Char
  | [] => []
  | [a] => [b64Char (a >>> 2), b64Char ((a &&& 3) <<< 4), '=', '=']
  | [a, b] =>
      [b64Char (a >>> 2), b64Char (((a &&& 3) <<< 4) ||| (b >>> 4)),
       b64Char ((b &&& 15) <<< 2), '=']
  | a :: b :: c :: rest =>
      b64Char (a >>> 2) :: b64Char (((a &&& 3) <<< 4) ||| (b >>> 4)) ::
      b64Char (((b &&& 15) <<< 2) ||| (c >>> 6)) :: b64Char (c &&& 63) ::
      base64Chunks rest

/-- `buf.toString('base64')` (server.js line 188). -/
def base64Encode (bs : List Nat) : String := ⟨base64Chunks bs⟩

/-- Index of a character in the base64 alphabet, `none` for characters
outside it (Node's decoder skips those, including `=` padding). -/
def b64ValAux : List Char → Nat → Char → Option Nat
  | [], _, _ => none
  | t :: ts, i, c => if t == c then some i else b64ValAux ts (i + 1) c

/-- 6-bit value of one base64 character, if any. -/
def b64Val (c : Char) : Option Nat := b64ValAux base64Table 0 c

/-- Repack a list of 6-bit values into bytes, dropping a trailing
remainder of fewer than 8 bits, as Node's base64 decoder does. -/
def b64Bytes : List Nat → List Nat
  | a :: b :: c :: d :: rest =>
      ((a <<< 2) ||| (b >>> 4)) :: (((b &&& 15) <<< 4) ||| (c >>> 2)) ::
      (((c &&& 3) <<< 6) ||| d) :: b64Bytes rest
  | [a, b] => [(a <<< 2) ||| (b >>> 4)]
  | [a, b, c] => [(a <<< 2) ||| (b >>> 4), ((b &&& 15) <<< 4) ||| (c >>> 2)]
  | _ => []

/-- `Buffer.from(payload, 'base64')` (server.js line 174). -/
def base64Decode (s : String) : List Nat := b64Bytes (s.data.filterMap b64Val)

/-- The three external services reached from the media pipeline.
`transcribe` is `transcribeAudio` (server.js lines 255-294), which catches
every failure internally and returns `''`, so it is a total oracle from
audio bytes to text.  `chatApi` is the OpenAI POST inside
`generateLLMReply`.  `polly` is `pollyClient.send` plus the stream
accumulation inside `synthesizeSpeech` (lines 384-391): `Except.ok` carries
the PCM bytes, `Except.error` a transport/auth failure. -/
structure Adapters where
  transcribe : List Nat → String
  chatApi : List Msg → Except Unit String
  polly : String → Except Unit (List Nat)

/-- `synthesizeSpeech` (server.js lines 375-392): empty text short-circuits
to an empty buffer without calling Polly; otherwise the Polly result (or
its failure) is returned as-is — there is no `try`/`catch` here. -/
def synthesizeSpeech (polly : String → Except Unit (List Nat))
    (text : String) : Except Unit (List Nat) :=
  if text = "" then Except.ok [] else polly text

/-- Which external calls a media turn issued, in order. -/
inductive AdapterCall
  | stt
  | chat
  | tts
  deriving DecidableEq

/-- Outbound WebSocket messages constructed by `handleMediaMessage`:
`{event:"clear"}` and `{event:"media", media:{payload:<base64>}}`. -/
inductive OutEvent
  | clear
  | media (payload : String)
  deriving DecidableEq

/-- Outcome of one `handleMediaMessage` invocation: whether it returned
normally (`Except.error` marks an exception propagating out of the
function, which the `ws.on('message')` listener also does not catch, so it
becomes an unhandled promise rejection), the `ws.send` calls made in
order, the external calls issued, and the `conversationHistory` map
afterwards. -/
structure HMMOut where
  result : Except Unit Unit
  events : List OutEvent
  calls : List AdapterCall
  hist : ConvMap

/-- `handleMediaMessage` (server.js lines 165-196).  `payload?` is
`message.media && message.media.payload` (`none` or `some ""` are falsy
and return early).  The session's socket is looked up in `connections`;
a miss returns early.  There is no `try`/`catch` in the body: a failure
of `synthesizeSpeech` or of `pcmToMuLaw` escapes as `Except.error`. -/
def handleMediaMessage (A : Adapters) (conns : Registry) (hist : ConvMap)
    (callSid : String) (payload? : Option String) : HMMOut :=
  match payload? with
  | none => { result := Except.ok (), events := [], calls := [], hist := hist }
  | some payload =>
    if payload = "" then
      { result := Except.ok (), events := [], calls := [], hist := hist }
    else
      match List.lookup callSid conns with
      | none => { result := Except.ok (), events := [], calls := [], hist := hist }
      | some _ =>
        let audioBuffer := base64Decode payload
        let transcript := A.transcribe audioBuffer
        if transcript = "" then
          { result := Except.ok (), events := [], calls := [AdapterCall.stt], hist := hist }
        else
          let g := generateLLMReply A.chatApi transcript callSid hist
          let calls :=
            AdapterCall.stt ::
              ((if g.apiCalled then [AdapterCall.chat] else []) ++
               (if g.reply = "" then [] else [AdapterCall.tts]))
          match synthesizeSpeech A.polly g.reply with
          | Except.error e =>
            { result := Except.error e, events := [], calls := calls, hist := g.hist }
          | Except.ok speechAudio =>
            match pcmToMuLaw speechAudio with
            | none =>
              { result := Except.error (), events := [], calls := calls, hist := g.hist }
            | some muLawAudio =>
              let b64 := base64Encode muLawAudio
              { result := Except.ok (),
                events := [OutEvent.clear, OutEvent.media b64],
                calls := calls, hist := g.hist }

/-- C2 counterexample: with a live session, a non-empty transcript and a
failing synthesis adapter, `handleMediaMessage` does not catch the
failure: it ends in `Except.error`, the exception escaping to the
`ws.on('message')` listener (which does not catch it either), so the
failure IS propagated past the pipeline, refuting the claim that it is
caught locally and cannot crash the session. -/
theorem hmm_synth_error_escapes :
    (handleMediaMessage
      { transcribe := fun _ => "hello",
        chatApi := fun _ => Except.ok "Hi there.",
        polly := fun _ => Except.error () }
      [("CA1", 1)] [] "CA1" (some "AAAA")).result = Except.error () := by
  exact rfl

/-- C2 (amended): when the synthesis adapter fails on the turn's reply,
the pipeline emits no outbound event and has attempted synthesis exactly
once, but the failure is not caught: `handleMediaMessage` ends in
`Except.error` instead of returning normally. -/
theorem hmm_synth_failure_behavior (A : Adapters) (conns : Registry)
    (hist : ConvMap) (sid p : String) (w : Nat)
    (hp : p ≠ "")
    (hw : List.lookup sid conns = some w)
    (ht : A.transcribe (base64Decode p) ≠ "")
    (hr : (generateLLMReply A.chatApi (A.transcribe (base64Decode p)) sid hist).reply ≠ "")
    (hpolly : ∀ s, A.polly s = Except.error ()) :
    (handleMediaMessage A conns hist sid (some p)).result = Except.error () ∧
    (handleMediaMessage A conns hist sid (some p)).events = [] ∧
    ((handleMediaMessage A conns hist sid (some p)).calls.count AdapterCall.tts) = 1 := by
  cases hb : (generateLLMReply A.chatApi (A.transcribe (base64Decode p)) sid hist).apiCalled <;>
    refine ⟨?_, ?_, ?_⟩ <;>
      simp [handleMediaMessage, synthesizeSpeech, hw, hp, ht, hr, hpolly, hb,
        List.count_cons, List.count_append]

/-- Closed instance of `hmm_synth_failure_behavior` with an always-failing
Polly adapter and a transcript of `"book a ride"`. -/
theorem hmm_synth_failure_behavior_w :
    ("Zm9v" ≠ "" ∧
     List.lookup "CA7" [("CA7", 3)] = some 3) ∧
    ((handleMediaMessage
        { transcribe := fun _ => "book a ride",
          chatApi := fun _ => Except.error (),
          polly := fun _ => Except.error () }
        [("CA7", 3)] [] "CA7" (some "Zm9v")).result = Except.error () ∧
     (handleMediaMessage
        { transcribe := fun _ => "book a ride",
          chatApi := fun _ => Except.error (),
          polly := fun _ => Except.error () }
        [("CA7", 3)] [] "CA7" (some "Zm9v")).events = [] ∧
     ((handleMediaMessage
        { transcribe := fun _ => "book a ride",
          chatApi := fun _ => Except.error (),
          polly := fun _ => Except.error () }
        [("CA7", 3)] [] "CA7" (some "Zm9v")).calls.count AdapterCall.tts) = 1) :=
  ⟨⟨by decide, rfl⟩,
   hmm_synth_failure_behavior
     { transcribe := fun _ => "book a ride",
       chatApi := fun _ => Except.error (),
       polly := fun _ => Except.error () }
     [("CA7", 3)] [] "CA7" "Zm9v" 3
     (by decide) rfl (by decide) (by decide) (fun _ => rfl)⟩

/-- C8: an inbound media event whose transcription result is empty ends
the turn immediately: no reply generation, no outbound event, a normal
return, and an untouched conversation history — the session is back to
waiting for audio. -/
theorem hmm_empty_transcript_idle (A : Adapters) (conns : Registry)
    (hist : ConvMap) (sid p : String) (w : Nat)
    (hp : p ≠ "")
    (hw : List.lookup sid conns = some w)
    (ht : A.transcribe (base64Decode p) = "") :
    handleMediaMessage A conns hist sid (some p)
      = { result := Except.ok (), events := [], calls := [AdapterCall.stt],
          hist := hist } := by
  simp [handleMediaMessage, hw, hp, ht]

/-- Closed instance of `hmm_empty_transcript_idle` with a transcription
stub that returns the empty transcript. -/
theorem hmm_empty_transcript_idle_w :
    ("Zg==" ≠ "" ∧ List.lookup "CA9" [("CA9", 7)] = some 7) ∧
    (handleMediaMessage
      { transcribe := fun _ => "",
        chatApi := fun _ => Except.ok "unused",
        polly := fun _ => Except.ok [] }
      [("CA9", 7)] [] "CA9" (some "Zg==")
      = { result := Except.ok (), events := [], calls := [AdapterCall.stt],
          hist := [] }) :=
  ⟨⟨by decide, rfl⟩,
   hmm_empty_transcript_idle
     { transcribe := fun _ => "",
       chatApi := fun _ => Except.ok "unused",
       polly := fun _ => Except.ok [] }
     [("CA9", 7)] [] "CA9" "Zg==" 7 (by decide) rfl rfl⟩

/-- C9: whatever the adapters and state do, one `handleMediaMessage`
invocation either emits nothing or emits exactly the burst
`[clear, media <base64>]`: every outbound media reply is preceded by
exactly one clear event, and these two are the only outbound shapes the
handler constructs. -/
theorem hmm_outbound_shapes (A : Adapters) (conns : Registry)
    (hist : ConvMap) (sid : String) (payload? : Option String) :
    (handleMediaMessage A conns hist sid payload?).events = [] ∨
    ∃ b, (handleMediaMessage A conns hist sid payload?).events
        = [OutEvent.clear, OutEvent.media b] := by
  cases payload? with
  | none => exact Or.inl rfl
  | some p =>
    by_cases hp : p = ""
    · left; simp [handleMediaMessage, hp]
    · cases hlk : List.lookup sid conns with
      | none => left; simp [handleMediaMessage, hp, hlk]
      | some w =>
        by_cases ht : A.transcribe (base64Decode p) = ""
        · left; simp [handleMediaMessage, hp, hlk, ht]
        · cases hs : synthesizeSpeech A.polly
              (generateLLMReply A.chatApi (A.transcribe (base64Decode p)) sid hist).reply with
          | error e => left; simp [handleMediaMessage, hp, hlk, ht, hs]
          | ok s =>
            cases hm : pcmToMuLaw s with
            | none => left; simp [handleMediaMessage, hp, hlk, ht, hs, hm]
            | some mu =>
              right
              exact ⟨base64Encode mu, by simp [handleMediaMessage, hp, hlk, ht, hs, hm]⟩

/-- Result of the `wss.on('connection')` handler: the `connections` table
afterwards, and whether the connection was kept (`false` means the code
called `ws.close()` immediately and registered nothing). -/
structure ConnOut where
  conns : Registry
  accepted : Bool

/-- The `wss.on('connection')` handler (server.js lines 122-131), up to
the installation of the listeners: `callSid?` is
`params.get('callSid')` (`none` when the query parameter is missing, and
the empty string is falsy too), and registration is the unconditional
assignment `connections[callSid] = ws` — there is no check whether the
identifier is already registered. -/
def onConnection (conns : Registry) (callSid? : Option String) (ws : Nat) : ConnOut :=
  match callSid? with
  | none => { conns := conns, accepted := false }
  | some sid =>
    if sid = "" then { conns := conns, accepted := false }
    else { conns := setA conns sid ws, accepted := true }

/-- C3 counterexample: a second connection arriving with a call identifier
that already maps to a live session is NOT rejected — it is accepted and
silently replaces the previous socket in the table. -/
theorem onConnection_duplicate_accepted :
    onConnection [("CA1", 1)] (some "CA1") 2
      = { conns := [("CA1", 2)], accepted := true } := by
  exact rfl

/-- C3 (amended): a connection without a (non-empty) call identifier is
refused and nothing is registered; a connection with a non-empty
identifier is always accepted — even when the identifier already maps to
a live session — and the table afterwards maps that identifier to the new
socket, so each identifier still maps to at most one socket, by
replacement rather than by rejection. -/
theorem onConnection_behavior (conns : Registry) (sid : String) (w : Nat)
    (h : sid ≠ "") :
    (onConnection conns none w).accepted = false ∧
    (onConnection conns none w).conns = conns ∧
    (onConnection conns (some "") w).accepted = false ∧
    (onConnection conns (some "") w).conns = conns ∧
    (onConnection conns (some sid) w).accepted = true ∧
    List.lookup sid (onConnection conns (some sid) w).conns = some w := by
  refine ⟨rfl, rfl, rfl, rfl, ?_, ?_⟩ <;> simp [onConnection, h, lookup_setA]

/-- Closed instance of `onConnection_behavior` re-registering `"CA2"` over
an existing session. -/
theorem onConnection_behavior_w :
    ("CA2" ≠ "") ∧
    ((onConnection [("CA2", 4)] none 5).accepted = false ∧
     (onConnection [("CA2", 4)] none 5).conns = [("CA2", 4)] ∧
     (onConnection [("CA2", 4)] (some "") 5).accepted = false ∧
     (onConnection [("CA2", 4)] (some "") 5).conns = [("CA2", 4)] ∧
     (onConnection [("CA2", 4)] (some "CA2") 5).accepted = true ∧
     List.lookup "CA2" (onConnection [("CA2", 4)] (some "CA2") 5).conns = some 5) :=
  ⟨by decide, onConnection_behavior [("CA2", 4)] "CA2" 5 (by decide)⟩

/-- The per-process mutable state the socket handlers touch: the
`connections` table and the `conversationHistory` map. -/
structure ServerState where
  conns : Registry
  hist : ConvMap

/-- Teardown on socket closure (server.js lines 144-148 for the inbound
`closed` event and 151-154 for the socket `close` event): both paths run
`delete connections[callSid]` and nothing else — in particular neither
touches `conversationHistory`. -/
def onClose (st : ServerState) (callSid : String) : ServerState :=
  { conns := removeA st.conns callSid, hist := st.hist }

/-- C4 counterexample: after the socket of call `"CA1"` closes, the
conversation history of that call is still present in the global map,
refuting the claim that the history is discarded with the session. -/
theorem onClose_keeps_history :
    (onClose { conns := [("CA1", 1)],
               hist := [("CA1", [⟨Role.user, "hi"⟩])] } "CA1").hist
      = [("CA1", [⟨Role.user, "hi"⟩])] := by
  exact rfl

/-- C4 (amended): closing a call's socket removes the session from the
registry, but the call's conversation history is NOT discarded: the
`conversationHistory` map is left exactly as it was, so the per-call turn
history persists in process memory after the session is destroyed (and
would be reused by a later call with the same identifier). -/
theorem onClose_behavior (st : ServerState) (sid : String) :
    List.lookup sid (onClose st sid).conns = none ∧
    (onClose st sid).hist = st.hist := by
  exact ⟨lookup_removeA st.conns sid, rfl⟩

/-- One occurrence in the per-call event interleaving modelled for the
turn-taking claim: either a `media` frame is delivered (the
`ws.on('message')` listener runs synchronously up to its first `await`,
spawning a new `handleMediaMessage` pipeline), or the event loop resumes
the oldest in-flight pipeline at its next suspend point. -/
inductive WsAct
  | mediaArrives
  | taskResumes

/-- Suspend points inside one `handleMediaMessage` pipeline: the awaited
calls `transcribeAudio`, `generateLLMReply` and `synthesizeSpeech`. -/
def pipelineStages : Nat := 3

/-- One scheduling step of the `ws.on('message')` dispatch (server.js
lines 132-149).  The state is the list of in-flight pipelines (each the
number of suspend points it still has to pass).  The listener checks only
`message.event` — it consults no busy flag and no queue — so a `media`
frame ALWAYS spawns a new pipeline, whatever is already in flight;
`taskResumes` advances the oldest pipeline and retires it when done. -/
def wsStep (tasks : List Nat) : WsAct → List Nat
  | WsAct.mediaArrives => tasks ++ [pipelineStages]
  | WsAct.taskResumes =>
    match tasks with
    | [] => []
    | n :: rest => match n with
      | 0 => rest
      | m + 1 => (m :: rest)

/-- The in-flight pipelines after a sequence of scheduling events,
starting from an idle session. -/
def wsRun (acts : List WsAct) : List Nat := acts.foldl wsStep []

/-- C5 counterexample: two back-to-back `media` frames while the first is
still processing leave TWO reply pipelines in flight for the same call —
the second frame is not dropped and the two utterances are processed
concurrently. -/
theorem wsRun_two_concurrent :
    wsRun [WsAct.mediaArrives, WsAct.mediaArrives] = [3, 3] ∧
    (wsRun [WsAct.mediaArrives, WsAct.mediaArrives]).length = 2 := by
  exact ⟨rfl, rfl⟩

/-- C5 (amended): the message listener never drops a `media` frame on
busy: after any prior interleaving whatsoever, a newly delivered `media`
frame adds one more in-flight pipeline, so the number of concurrently
processing utterances for one call is unbounded rather than capped at
one. -/
theorem wsRun_media_never_dropped (acts : List WsAct) :
    (wsRun (acts ++ [WsAct.mediaArrives])).length = (wsRun acts).length + 1 := by
  unfold wsRun
  rw [List.foldl_append]
  simp [wsStep]
